import Mathlib

set_option maxRecDepth 100000
set_option maxHeartbeats 4000000

/-!
# Verification of the tweet-activity time-bucketing and forecasting engine

Shallow embedding of the core date/grid/forecast logic of the
`elon-musk-tweet-activity` repository:

* `src/utils/dateTime.ts` — ET component extraction and noon-date construction;
* `src/data/processor.js` — the 24×8 grid builder `processData`;
* `src/data/analytics.js` — `calculate4WeekAverage` and `calculatePredictions`;
* `src/utils/dateRanges.ts` — week-range enumeration;
* the CSV parser's reverse-chronological year inference.

Modelling conventions:

* Absolute instants (JS `Date`) are integer milliseconds since the Unix epoch
  (`Int`). `Date.now()`/`new Date()` is threaded through as an explicit `now`
  parameter.
* JS numbers are modelled as exact rationals (`ℚ`): an idealisation of IEEE
  doubles.  Every fact proved below depends only on comparisons, `max`,
  `Math.round`/`Math.floor` and exact small-denominator arithmetic, where the
  idealisation agrees with the double computation at the inputs used.
* `Math.sqrt` (used once, in the end-of-range confidence interval) is not a
  rational function; it is threaded as an explicit function parameter
  `sqrtFn : ℚ → ℚ`, and every theorem below holds for an arbitrary `sqrtFn`
  (hence in particular for the real square root).
* `getETComponents` delegates to `Intl.DateTimeFormat` with the IANA zone
  `America/New_York`; it is embedded using the post-2007 US rule that `Intl`
  implements for modern dates: UTC−4 from 2:00 EST (7:00 UTC) on the second
  Sunday of March until 2:00 EDT (6:00 UTC) on the first Sunday of November,
  UTC−5 otherwise.
* The module-level memo caches on `parseTwitterDate`/`getETComponents` cache a
  pure function keyed by its exact input and are omitted; the memoization of
  `calculatePredictions`, which a claim is about, is modelled explicitly.
-/

/-! ## Civil calendar arithmetic (Gregorian, proleptic) -/

/-- Days since 1970-01-01 of the civil date `(y, m, d)`, `m ∈ 1..12`
(Howard Hinnant's `days_from_civil`, valid for all `y` with floor division). -/
def daysFromCivil (y m d : Int) : Int :=
  let y2 := if m ≤ 2 then y - 1 else y
  let era := Int.fdiv y2 400
  let yoe := y2 - era * 400
  let mp := Int.fmod (m + 9) 12
  let doy := Int.fdiv (153 * mp + 2) 5 + d - 1
  let doe := yoe * 365 + Int.fdiv yoe 4 - Int.fdiv yoe 100 + doy
  era * 146097 + doe - 719468

/-- Inverse of `daysFromCivil`: the civil date `(y, m, d)` of a day number
(Hinnant's `civil_from_days`). -/
def civilFromDays (z : Int) : Int × Int × Int :=
  let z2 := z + 719468
  let era := Int.fdiv z2 146097
  let doe := z2 - era * 146097
  let yoe :=
    Int.fdiv (doe - Int.fdiv doe 1460 + Int.fdiv doe 36524 - Int.fdiv doe 146096) 365
  let y := yoe + era * 400
  let doy := doe - (365 * yoe + Int.fdiv yoe 4 - Int.fdiv yoe 100)
  let mp := Int.fdiv (5 * doy + 2) 153
  let d := doy - Int.fdiv (153 * mp + 2) 5 + 1
  let m := if mp < 10 then mp + 3 else mp - 9
  (if m ≤ 2 then y + 1 else y, m, d)

/-- Day of week of a day number, `0 = Sunday .. 6 = Saturday`
(1970-01-01 was a Thursday). -/
def weekdayFromDays (z : Int) : Int :=
  Int.fmod (z + 4) 7

/-- Day of month of the first Sunday of month `m` of year `y`. -/
def firstSundayOfMonth (y m : Int) : Int :=
  1 + Int.fmod (7 - weekdayFromDays (daysFromCivil y m 1)) 7

/-- Milliseconds per hour / day. -/
def msPerHour : Int := 3600000

def msPerDay : Int := 86400000

/-- Whether instant `t` (ms since epoch) falls in US Eastern daylight-saving
time under the post-2007 rule: from 7:00 UTC on the second Sunday of March to
6:00 UTC on the first Sunday of November. -/
def isEasternDST (t : Int) : Bool :=
  let y := (civilFromDays (Int.fdiv t msPerDay)).1
  let dstStart := daysFromCivil y 3 (firstSundayOfMonth y 3 + 7) * msPerDay + 7 * msPerHour
  let dstStop := daysFromCivil y 11 (firstSundayOfMonth y 11) * msPerDay + 6 * msPerHour
  decide (dstStart ≤ t ∧ t < dstStop)

/-! ## `src/utils/dateTime.ts` -/

/-- The `ETComponents` record of `dateTime.ts` (`month` is 0-indexed,
`dayOfWeek` is `0 = Sunday`). -/
structure ETComponents where
  year : Int
  month : Int
  day : Int
  hour : Int
  minute : Int
  second : Int
  dayOfWeek : Int
deriving DecidableEq, Repr

/-- `getETComponents`: wall-clock breakdown of instant `t` in
`America/New_York` (the behaviour of the `Intl.DateTimeFormat` path of
`dateTime.ts` for modern dates). -/
def getETComponents (t : Int) : ETComponents :=
  let offset : Int := if isEasternDST t then -4 * msPerHour else -5 * msPerHour
  let localMs := t + offset
  let z := Int.fdiv localMs msPerDay
  let rem := Int.fmod localMs msPerDay
  let ymd := civilFromDays z
  { year := ymd.1
    month := ymd.2.1 - 1
    day := ymd.2.2
    hour := Int.fdiv rem msPerHour
    minute := Int.fdiv (Int.fmod rem msPerHour) 60000
    second := Int.fdiv (Int.fmod rem 60000) 1000
    dayOfWeek := weekdayFromDays z }

/-- JS `Date.UTC(y, m - 1, d, h, mi, s)` in ms (with month rollover
normalisation, as `Date.UTC` performs). -/
def dateUTC (y m d h mi s : Int) : Int :=
  let y2 := y + Int.fdiv (m - 1) 12
  let m2 := Int.fmod (m - 1) 12 + 1
  daysFromCivil y2 m2 d * msPerDay + h * msPerHour + mi * 60000 + s * 1000

/-- `createETNoonDate(year, month, day)` from `dateTime.ts` (`month` 1-based):
chooses EDT vs EST by the *simplified* fixed-date check
“March 14 – November 7 is EDT”, then returns 16:00 UTC (EDT) or
17:00 UTC (EST) of that calendar date. -/
def createETNoonDate (year month day : Int) : Int :=
  let isEDT :=
    (3 < month ∧ month < 11) ∨ (month = 3 ∧ 14 ≤ day) ∨ (month = 11 ∧ day ≤ 7)
  let utcHour : Int := if isEDT then 16 else 17
  dateUTC year month day utcHour 0 0

/-! String primitives are re-implemented by structural recursion over
character lists so that every definition evaluates inside the kernel
(core `String.splitOn`/`String.toNat?` use well-founded recursion and
get stuck under `decide`). -/

/-- Fuelled worker for `strSplitOn` (fuel strictly exceeds the remaining
character count, so it is never exhausted for a non-empty pattern). -/
def splitOnFuel (pat : List Char) : Nat → List Char → List Char → List (List Char)
  | 0, acc, _ => [acc.reverse]
  | _ + 1, acc, [] => [acc.reverse]
  | fuel + 1, acc, c :: rest =>
    if pat.isPrefixOf (c :: rest) then
      acc.reverse :: splitOnFuel pat fuel [] ((c :: rest).drop pat.length)
    else
      splitOnFuel pat fuel (c :: acc) rest

/-- JS `s.split(pat)` / Lean `String.splitOn` for a non-empty pattern. -/
def strSplitOn (s pat : String) : List String :=
  (splitOnFuel pat.data (s.data.length + 1) [] s.data).map String.mk

/-- JS `Array.prototype.join(sep)`. -/
def strJoin (sep : String) (xs : List String) : String :=
  String.mk (List.intercalate sep.data (xs.map String.data))

/-- JS `s.trim()`. -/
def strTrim (s : String) : String :=
  String.mk
    (((s.data.dropWhile (·.isWhitespace)).reverse.dropWhile (·.isWhitespace)).reverse)

/-- JS `Number(s)` restricted to the plain decimal-digit strings this app
feeds it (malformed components give `NaN`/an invalid date in JS; every call
site in the code under verification passes zero-padded `YYYY-MM-DD` parts). -/
def numOf (s : String) : Int :=
  if s.data ≠ [] ∧ s.data.all (·.isDigit) then
    s.data.foldl (fun a c => a * 10 + ((c.toNat : Int) - 48)) 0
  else 0

/-- `parseETNoonDate("YYYY-MM-DD")` from `dateTime.ts`. -/
def parseETNoonDate (s : String) : Int :=
  let parts := strSplitOn s "-"
  createETNoonDate (numOf (parts.getD 0 "")) (numOf (parts.getD 1 ""))
    (numOf (parts.getD 2 ""))

/-- `formatHour(hour)` from `dateTime.ts`: `` `${hour % 12 || 12} ${period}` ``. -/
def formatHour (hour : Int) : String :=
  let r := Int.emod hour 12
  let h12 := if r = 0 then 12 else r
  let period := if hour < 12 then "AM" else "PM"
  s!"{h12} {period}"

/-- JS `String(n).padStart(2, "0")`. -/
def pad2 (n : Int) : String :=
  let s := toString n
  if s.length < 2 then "0" ++ s else s

/-- The `` `${et.year}-${MM}-${DD}` `` date string built repeatedly in
`processor.js` / `analytics.js` / `dateRanges.ts`. -/
def fmtDateET (c : ETComponents) : String :=
  s!"{c.year}-{pad2 (c.month + 1)}-{pad2 c.day}"

/-! ## `parseTwitterDate` (`src/utils/dateTime.ts`) -/

/-- JS `s.includes(pat)` (for the non-empty literal patterns used here). -/
def containsStr (s pat : String) : Bool :=
  (strSplitOn s pat).length != 1

/-- JS `s.replace(pat, "")` with a string pattern: remove the first
occurrence only. -/
def replaceFirst (s pat : String) : String :=
  match strSplitOn s pat with
  | [] => s
  | [x] => x
  | x :: rest => x ++ strJoin pat rest

/-- A JS regex word character (`\w`). -/
def isWordChar (c : Char) : Bool :=
  c.isAlphanum || c = '_'

/-- Scan for the regex `\b20\d{2}\b` (the "already has a year" test of
`parseTwitterDate`), advancing one character at a time like a regex engine. -/
def hasYearTokenAux : Option Char → List Char → Bool
  | _, [] => false
  | prev, c :: rest =>
    (match c, rest with
     | '2', '0' :: c3 :: c4 :: rest2 =>
       (match prev with | none => true | some p => !isWordChar p) &&
         c3.isDigit && c4.isDigit &&
         (match rest2 with | [] => true | n :: _ => !isWordChar n)
     | _, _ => false)
    || hasYearTokenAux (some c) rest

def hasYearToken (s : String) : Bool :=
  hasYearTokenAux none s.data

/-- Decimal digits to an integer (applied to scanned digit runs). -/
def digitsToInt (cs : List Char) : Int :=
  cs.foldl (fun a c => a * 10 + ((c.toNat : Int) - 48)) 0

/-- Matcher for the regex
`^(\w+)\s+(\d+),\s+(\d{4}),\s+(\d{1,2}):(\d{2}):(\d{2})\s+(AM|PM)$`
of `parseTwitterDate`.  Returns
`(monthStr, day, year, hour12, minute, second, isPM)`. -/
def matchTwitterPattern (s : String) :
    Option (String × Int × Int × Int × Int × Int × Bool) :=
  let cs0 := s.data
  let p1 := cs0.span isWordChar
  if p1.1.isEmpty then none else
  let p2 := p1.2.span (·.isWhitespace)
  if p2.1.isEmpty then none else
  let p3 := p2.2.span (·.isDigit)
  if p3.1.isEmpty then none else
  match p3.2 with
  | ',' :: cs4 =>
    let p4 := cs4.span (·.isWhitespace)
    if p4.1.isEmpty then none else
    let p5 := p4.2.span (·.isDigit)
    if p5.1.length ≠ 4 then none else
    match p5.2 with
    | ',' :: cs7 =>
      let p6 := cs7.span (·.isWhitespace)
      if p6.1.isEmpty then none else
      let p7 := p6.2.span (·.isDigit)
      if p7.1.isEmpty || p7.1.length > 2 then none else
      match p7.2 with
      | ':' :: cs10 =>
        let p8 := cs10.span (·.isDigit)
        if p8.1.length ≠ 2 then none else
        match p8.2 with
        | ':' :: cs12 =>
          let p9 := cs12.span (·.isDigit)
          if p9.1.length ≠ 2 then none else
          let p10 := p9.2.span (·.isWhitespace)
          if p10.1.isEmpty then none else
          match p10.2 with
          | ['A', 'M'] =>
            some (String.mk p1.1, digitsToInt p3.1, digitsToInt p5.1,
              digitsToInt p7.1, digitsToInt p8.1, digitsToInt p9.1, false)
          | ['P', 'M'] =>
            some (String.mk p1.1, digitsToInt p3.1, digitsToInt p5.1,
              digitsToInt p7.1, digitsToInt p8.1, digitsToInt p9.1, true)
          | _ => none
        | _ => none
      | _ => none
    | _ => none
  | _ => none

def monthNames : List String :=
  ["Jan", "Feb", "Mar", "Apr", "May", "Jun",
   "Jul", "Aug", "Sep", "Oct", "Nov", "Dec"]

/-- `parseTwitterDate(dateStr)` from `dateTime.ts`.  `now` is the wall clock
(`new Date()`), read only when the string carries no 4-digit year.  Returns
the parsed instant (ms), or `none` where the JS returns `null`. -/
def parseTwitterDate (now : Int) (dateStr : String) : Option Int :=
  let clean0 := strTrim dateStr
  let isEDT := containsStr clean0 " EDT"
  let clean1 := replaceFirst (replaceFirst clean0 " EDT") " EST"
  let clean2 :=
    if hasYearToken clean1 then clean1
    else
      let parts := strSplitOn clean1 ", "
      if parts.length ≥ 2 then
        (parts.getD 0 "") ++ ", " ++ toString (getETComponents now).year ++ ", " ++
          strJoin ", " parts.tail
      else clean1
  match matchTwitterPattern clean2 with
  | none => none
  | some (monthStr, day, year, hour12, minute, second, isPM) =>
    let month : Int :=
      match monthNames.findIdx? (· == String.mk (monthStr.data.take 3)) with
      | some i => (i : Int) + 1
      | none => 0
    if month = 0 then none
    else
      let hour :=
        if isPM ∧ hour12 ≠ 12 then hour12 + 12
        else if ¬isPM ∧ hour12 = 12 then 0
        else hour12
      let utcOffsetHours : Int := if isEDT then 4 else 5
      some (dateUTC year month day (hour + utcOffsetHours) minute second)

/-! ## `processData` (`src/data/processor.js`) -/

/-- The slice of a raw tweet record that the processor reads. -/
structure Tweet where
  created_at : String
deriving DecidableEq, Repr

def dayNamesList : List String :=
  ["SUN", "MON", "TUE", "WED", "THU", "FRI", "SAT"]

/-- `generateDayLabels(startDate, dayCount)` from `processor.js`: weekday
abbreviations of `startDate + i·24h` in ET. -/
def generateDayLabels (startDate : Int) (dayCount : Nat) : List String :=
  (List.range dayCount).map (fun (i : Nat) =>
    dayNamesList.getD (getETComponents (startDate + (i : Int) * msPerDay)).dayOfWeek.toNat "")

/-- Lexicographic strict order on character lists. -/
def charListLt : List Char → List Char → Bool
  | [], [] => false
  | [], _ :: _ => true
  | _ :: _, [] => false
  | a :: as, b :: bs => if a < b then true else if b < a then false else charListLt as bs

/-- JS `<` on strings (UTF-16 code-unit lexicographic; identical to
code-point order on the ASCII date strings compared here). -/
def jsStrLt (a b : String) : Bool :=
  charListLt a.data b.data

/-- Update index `n` of a list in place (JS `arr[n] = f(arr[n])`; no-op out
of range, which never happens at the guarded call sites). -/
def updAt {α : Type} : List α → Nat → (α → α) → List α
  | [], _, _ => []
  | x :: rest, 0, f => f x :: rest
  | x :: rest, n + 1, f => x :: updAt rest n f

/-- `grid[h][d]` with 0 default (indices are always in range when read). -/
def cellGet (g : List (List Nat)) (h d : Nat) : Nat :=
  (g.getD h []).getD d 0

/-- One iteration of the `tweets.forEach` loop of `processData`, updating
`(grid, validTweets)`.  `rp` is `some (startDate, endDate)` in ranged mode. -/
def bucketStep (now : Int) (rp : Option (String × String)) (dayCount : Nat)
    (st : List (List Nat) × Nat) (tw : Tweet) : List (List Nat) × Nat :=
  match parseTwitterDate now tw.created_at with
  | none => st
  | some date =>
    if now + msPerDay < date then st
    else
      match rp with
      | some (s, e) =>
        let tweetET := getETComponents date
        let tweetDateStr := fmtDateET tweetET
        let tweetHour := tweetET.hour
        if (tweetDateStr = s ∧ tweetHour < 12)
            ∨ (tweetDateStr ≠ s ∧ jsStrLt tweetDateStr s)
            ∨ (tweetDateStr = e ∧ 12 ≤ tweetHour)
            ∨ (tweetDateStr ≠ e ∧ jsStrLt e tweetDateStr) then st
        else
          let startET := getETComponents (parseETNoonDate s)
          let startDateStr := fmtDateET startET
          let tweetDayStart := parseETNoonDate tweetDateStr - 12 * msPerHour
          let startDayStart := parseETNoonDate startDateStr - 12 * msPerHour
          let daysDiff := Int.fdiv (tweetDayStart - startDayStart) msPerDay
          if 0 ≤ daysDiff ∧ daysDiff < (dayCount : Int) then
            (updAt st.1 tweetHour.toNat (fun row => updAt row daysDiff.toNat (· + 1)),
              st.2 + 1)
          else st
      | none =>
        let dateET := getETComponents date
        let adjustedDay : Int := if dateET.dayOfWeek = 0 then 6 else dateET.dayOfWeek - 1
        if 0 ≤ adjustedDay ∧ adjustedDay < (dayCount : Int) then
          (updAt st.1 dateET.hour.toNat (fun row => updAt row adjustedDay.toNat (· + 1)),
            st.2 + 1)
        else st

/-- The result record of `processData` (`dateRange` split into its two
instant fields; `null` becomes `none`). -/
structure ProcResult where
  grid : List (List Nat)
  hours : List String
  days : List String
  totals : List Nat
  current : Nat
  maxValue : Nat
  peakHour : String
  mostActiveDay : String
  dateRangeStart : Option Int
  dateRangeEnd : Option Int
deriving DecidableEq, Repr

/-- The `startDate && endDate` truthiness test of `processData` (empty JS
strings are falsy). -/
def procRangeParams (startDate endDate : Option String) : Option (String × String) :=
  match startDate, endDate with
  | some s, some e => if s ≠ "" ∧ e ≠ "" then some (s, e) else none
  | _, _ => none

/-- Day labels of `processData`: 8 generated labels in ranged mode, the
fixed Monday-first week otherwise. -/
def procDays (rp : Option (String × String)) : List String :=
  match rp with
  | some (s, _) => generateDayLabels (parseETNoonDate s) 8
  | none => ["MON", "TUE", "WED", "THU", "FRI", "SAT", "SUN"]

/-- Per-column totals of `processData`, skipping the disabled cells
(day 0 before noon, last day from noon). -/
def procTotals (grid : List (List Nat)) (dayCount : Nat) : List Nat :=
  (List.range dayCount).map (fun dayIndex =>
    (List.range 24).foldl (fun total hourIndex =>
      if dayIndex = 0 ∧ hourIndex < 12 then total
      else if dayIndex = dayCount - 1 ∧ 12 ≤ hourIndex then total
      else total + cellGet grid hourIndex dayIndex) 0)

/-- `processData(tweets, startDate, endDate)` from `processor.js`.
`now` is the wall clock (`new Date()`, read for the future-timestamp guard);
the unused `rangeType` parameter is dropped.  Raw JS string parameters are
`Option String`, with the empty string equally falsy. -/
def processData (now : Int) (tweets : List Tweet)
    (startDate endDate : Option String) : ProcResult :=
  let hours := (List.range 24).map (fun (i : Nat) => formatHour (i : Int))
  let rp := procRangeParams startDate endDate
  let days := procDays rp
  let dayCount := days.length
  let init : List (List Nat) × Nat :=
    (List.replicate 24 (List.replicate dayCount 0), 0)
  let built := tweets.foldl (bucketStep now rp dayCount) init
  let grid := built.1
  let totals := procTotals grid dayCount
  let maxValue := grid.flatten.foldl Nat.max 0
  let peakHourIndex := grid.findIdx (fun row => row.contains maxValue)
  let maxTotal := totals.foldl Nat.max 0
  let mostActiveDayIndex := totals.findIdx (· == maxTotal)
  { grid := grid
    hours := hours
    days := days
    totals := totals
    current := built.2
    maxValue := maxValue
    peakHour := formatHour (peakHourIndex : Int)
    mostActiveDay := days.getD mostActiveDayIndex ""
    dateRangeStart := rp.map (fun p => parseETNoonDate p.1)
    dateRangeEnd := rp.map (fun p => parseETNoonDate p.2) }

/-- Shape invariant of the fold state: 24 rows, each of width `k`. -/
def GridShape (g : List (List Nat)) (k : Nat) : Prop :=
  g.length = 24 ∧ ∀ row ∈ g, row.length = k

/-! ## `src/utils/dateRanges.ts` -/

inductive RangeType where
  | friday
  | tuesday
deriving DecidableEq, Repr

/-- One entry of the range catalogue (`{start, end, type}`; `end` is a Lean
keyword, hence `startMs`/`endMs`). -/
structure RawRange where
  startMs : Int
  endMs : Int
  rtype : RangeType
deriving DecidableEq, Repr

/-- `findRecentDayOfWeek(from, targetDayOfWeek)`: step back 24 elapsed hours
until the ET weekday matches.  The JS `while` loop is modelled with explicit
fuel (it needs at most a handful of steps; on exhaustion the current value is
returned, a case no theorem below relies on). -/
def findRecentDayOfWeekFuel : Nat → Int → Int → Int
  | 0, cur, _ => cur
  | fuel + 1, cur, target =>
    if (getETComponents cur).dayOfWeek = target then cur
    else findRecentDayOfWeekFuel fuel (cur - msPerDay) target

def findRecentDayOfWeek (fromMs target : Int) : Int :=
  findRecentDayOfWeekFuel 400 fromMs target

/-- `getCurrentWeekRange(recentDay, dayOfWeek, currentET)` from
`dateRanges.ts`: `(start, end)` with `end = start + 7·24h` of elapsed time,
both shifted one week later when today is the anchor weekday at or past
noon ET. -/
def getCurrentWeekRange (recentDay : Int) (dayOfWeek : Int)
    (currentET : ETComponents) : Int × Int :=
  let start := recentDay
  let endMs := recentDay + 7 * msPerDay
  if currentET.dayOfWeek = dayOfWeek ∧ 12 ≤ currentET.hour then
    (start + 7 * msPerDay, endMs + 7 * msPerDay)
  else (start, endMs)

/-- `generateRangesForDay(startDay, minDate, maxDate, type)` from
`dateRanges.ts`: the current/upcoming range plus the past 12 weeks, all by
fixed `7 * 24 * 60 * 60 * 1000` ms arithmetic.  The imperative loop is
unrolled into its closed form: iteration `i` pushes
`{start: startDay − (i+1)·7d, end: startDay − i·7d}`.  `minDate`/`maxDate`
are accepted and ignored exactly as in the source (used only for logging). -/
def generateRangesForDay (startDay minDate maxDate : Int) (ty : RangeType) :
    List RawRange :=
  let _ := minDate
  let _ := maxDate
  { startMs := startDay, endMs := startDay + 7 * msPerDay, rtype := ty } ::
    (List.range 12).map (fun (i : Nat) =>
      { startMs := startDay - ((i : Int) + 1) * (7 * msPerDay),
        endMs := startDay - (i : Int) * (7 * msPerDay),
        rtype := ty })

/-! ## Reverse-chronological year inference (CSV parser) -/

/-- The year-inference state machine of `parseCSV`: scanning timestamps
newest-first, carry `(currentYear, lastMonth)` — `lastMonth` starts at the
sentinel 13 — and before assigning a year to the next timestamp decrement
`currentYear` when its month index exceeds `lastMonth` (and `lastMonth` is
not the sentinel).  Returns the year assigned to each entry. -/
def inferYearsAux : Int → Int → List Int → List Int
  | _, _, [] => []
  | currentYear, lastMonth, m :: rest =>
    let y := if m > lastMonth ∧ lastMonth ≠ 13 then currentYear - 1 else currentYear
    y :: inferYearsAux y m rest

/-- Year assignment of `parseCSV` for a newest-first list of month indices,
starting from the current ET year. -/
def inferYears (nowYear : Int) (months : List Int) : List Int :=
  inferYearsAux nowYear 13 months

/-! ## `src/data/analytics.js` — data model and helpers -/

/-! JS double arithmetic is modelled by exact rational arithmetic.  The
`Rat` arithmetic of the ambient library is `@[irreducible]`, so the four
operations (and `Math.max`) are written out on numerators/denominators via
`Rat.divInt`, which evaluates inside the kernel; `jsAdd_eq` … `jsMax_eq`
below identify them with the ordinary `ℚ` operations.  Division by zero
yields 0 here where JS yields `±Infinity`; every division in the translated
code is either guarded against a zero denominator by the source or unused
by the theorems below.  Decimal literals (`0.3`, `1.15`, …) are written
`mkRat` for the same reducibility reason. -/

def jsAdd (a b : ℚ) : ℚ :=
  Rat.divInt (a.num * (b.den : Int) + b.num * (a.den : Int)) ((a.den : Int) * (b.den : Int))

def jsSub (a b : ℚ) : ℚ :=
  Rat.divInt (a.num * (b.den : Int) - b.num * (a.den : Int)) ((a.den : Int) * (b.den : Int))

def jsMul (a b : ℚ) : ℚ :=
  Rat.divInt (a.num * b.num) ((a.den : Int) * (b.den : Int))

def jsDiv (a b : ℚ) : ℚ :=
  Rat.divInt (a.num * (b.den : Int)) ((a.den : Int) * b.num)

/-- JS `Math.max` on two numbers. -/
def jsMax (a b : ℚ) : ℚ :=
  if a ≤ b then b else a

/-- JS `Math.round` (half up, also for negatives: `round(-1.5) = -1`):
`⌊x + 1/2⌋`. -/
def jsRoundInt (q : ℚ) : Int :=
  Rat.floor (jsAdd q (mkRat 1 2))

def jsRound (q : ℚ) : ℚ :=
  (jsRoundInt q : ℚ)

/-- `TREND_UP_THRESHOLD = 1.15` from `src/config/constants.ts`. -/
def TREND_UP_THRESHOLD : ℚ := mkRat 115 100

/-- `TREND_DOWN_THRESHOLD = 0.85` from `src/config/constants.ts`. -/
def TREND_DOWN_THRESHOLD : ℚ := mkRat 85 100

/-- `WEEKS_FOR_TREND` from `src/config/constants.ts`. -/
def WEEKS_FOR_TREND : Nat := 4

/-- A `dateRange` endpoint, which the source handles "both string and Date
object formats" for. -/
inductive DStr where
  | str (s : String)
  | date (t : Int)
deriving DecidableEq, Repr

/-- JS truthiness of an endpoint value (`""` falsy, `Date` objects truthy). -/
def dstrT : DStr → Bool
  | .str s => s ≠ ""
  | .date _ => true

/-- Resolve an endpoint to its `YYYY-MM-DD` string: strings pass through,
`Date`s are formatted from their ET components (the `typeof === "string"`
branches of `calculatePredictionsInternal`). -/
def resolveDateStr : DStr → String
  | .str s => s
  | .date t => fmtDateET (getETComponents t)

/-- The slice of a grid record read by `calculatePredictions`
(`currentData` / `avgData`): cell matrix, headline count, and the optional
`dateRange` with its two optional endpoints. -/
structure HeatmapData where
  grid : List (List ℚ)
  current : ℚ
  dateRange : Option (Option DStr × Option DStr)
deriving DecidableEq, Repr

/-- JS negative-index / out-of-range array access. -/
def listGetI {α : Type} (l : List α) (i : Int) : Option α :=
  if 0 ≤ i then l.get? i.toNat else none

/-- `getDayIndexFromStart(time, startDate)` from `analytics.js`: day index
0–7 of `time` relative to the range-start instant, via the ET-date noon of
`time` and `Math.round` of the millisecond difference in days; `-1` outside
the range. -/
def getDayIndexFromStart (time startDateMs : Int) : Int :=
  let timeET := getETComponents time
  let timeDateStr := fmtDateET timeET
  let timeDayNoon := parseETNoonDate timeDateStr
  let daysDiff := jsRoundInt
    (jsDiv ((timeDayNoon - startDateMs : Int) : ℚ) ((msPerDay : Int) : ℚ))
  if daysDiff < 0 ∨ daysDiff > 7 then -1 else daysDiff

/-- `getGridValue(grid, hour, day)` from `analytics.js`: bounds-checked cell
access returning 0 for missing cells and for the noon-disabled cells
(day 0 before noon, day 7 from noon). -/
def getGridValue (grid : List (List ℚ)) (hour day : Int) : ℚ :=
  match listGetI grid hour with
  | none => 0
  | some row =>
    match listGetI row day with
    | none => 0
    | some v =>
      if day = 0 ∧ hour < 12 then 0
      else if day = 7 ∧ 12 ≤ hour then 0
      else v

/-- `calculateRecentMomentum(currentData, avgData, now, startDate, hours)`:
recent actual vs expected activity over the `hoursBack` hours ending at
`now` (both grids are present whenever this is reached — the early guard of
the source returns 1 otherwise). -/
def calculateRecentMomentum (currentGrid avgGrid : List (List ℚ))
    (now startDateMs : Int) (hoursBack : Nat) : ℚ :=
  let r := (List.range hoursBack).foldl
    (fun (st : ℚ × ℚ × Nat) (i : Nat) =>
      let pastTime := now - (i : Int) * msPerHour
      let hour := (getETComponents pastTime).hour
      let dayIndex := getDayIndexFromStart pastTime startDateMs
      if 0 ≤ dayIndex ∧ dayIndex ≤ 7 then
        (jsAdd st.1 (getGridValue currentGrid hour dayIndex),
          jsAdd st.2.1 (getGridValue avgGrid hour dayIndex), st.2.2 + 1)
      else st)
    (0, 0, 0)
  if r.2.2 = 0 ∨ r.2.1 = 0 then 1 else jsDiv r.1 r.2.1

/-- `predictNext24hWithPattern(now, avgData, trendFactor, momentum,
startDate, endDate)`: sum over the next 24 hours of the per-hour historical
average weighted by `momentum·0.3 + trendFactor·0.7`, with the flat-rate
fallback for hours outside the 8-day grid but before the range end, and 0
past the range end.  `avgCur` is `avgData.current` (as mutated by the
caller's non-negativity clamp). -/
def predictNext24hWithPattern (now : Int) (avgGrid : List (List ℚ))
    (avgCur trendFactor momentum : ℚ) (startDateMs endDateMs : Int) : ℚ :=
  (List.range 24).foldl
    (fun prediction (i : Nat) =>
      let futureTime := now + (i : Int) * msPerHour
      let hour := (getETComponents futureTime).hour
      let dayIndex := getDayIndexFromStart futureTime startDateMs
      let hourlyPrediction :=
        if 0 ≤ dayIndex ∧ dayIndex ≤ 7 ∧ futureTime < endDateMs then
          let combinedFactor :=
            jsAdd (jsMul momentum (mkRat 3 10)) (jsMul trendFactor (mkRat 7 10))
          jsMul (getGridValue avgGrid hour dayIndex) combinedFactor
        else if futureTime < endDateMs then
          let totalHours := jsDiv ((endDateMs - startDateMs : Int) : ℚ) ((msPerHour : Int) : ℚ)
          jsMul (jsDiv avgCur totalHours) trendFactor
        else 0
      jsAdd prediction hourlyPrediction)
    0

/-- A `{min, max, stdDev}` confidence record. -/
structure ConfInterval where
  minV : ℚ
  maxV : ℚ
  stdDev : ℚ
deriving DecidableEq, Repr

/-- `calculatePredictionConfidenceInternal(prediction)`: the flat
15%-of-prediction heuristic with a 1.5 margin multiplier. -/
def calculatePredictionConfidenceInternal (prediction : ℚ) : ConfInterval :=
  let estimatedStdDev := jsMul prediction (mkRat 15 100)
  let margin := jsMul estimatedStdDev (mkRat 15 10)
  { minV := jsMax 0 (jsRound (jsSub prediction margin))
    maxV := jsRound (jsAdd prediction margin)
    stdDev := estimatedStdDev }

/-- `calculatePredictionConfidence(avgData, prediction)`.  The
`conf_`-keyed memoization layer of the source caches this pure function of
the (rounded) prediction and is modelled transparently; `avgPresent` is the
`avgData?.grid` guard. -/
def calculatePredictionConfidence (avgPresent : Bool) (prediction : ℚ) :
    ConfInterval :=
  if avgPresent then calculatePredictionConfidenceInternal prediction
  else { minV := prediction, maxV := prediction, stdDev := 0 }

/-- The pace block's `dateRange && dateRange.start && dateRange.end`
guard, returning the two resolved `YYYY-MM-DD` strings when it passes. -/
def paceStartEnd (c : HeatmapData) : Option (String × String) :=
  match c.dateRange with
  | some (some s, some e) =>
    if dstrT s ∧ dstrT e then some (resolveDateStr s, resolveDateStr e)
    else none
  | _ => none

/-- `elapsedHours` of `calculatePredictionsInternal` (0 when the date range
is incomplete, else `max(0, (now − startNoon) / 1h)`). -/
def elapsedHoursAt (now : Int) (c : HeatmapData) : ℚ :=
  match paceStartEnd c with
  | none => 0
  | some (s, _) =>
    jsMax 0 (jsDiv ((now - parseETNoonDate s : Int) : ℚ) ((msPerHour : Int) : ℚ))

/-- `totalHours` of `calculatePredictionsInternal` (0 when the date range is
incomplete). -/
def totalHoursAt (c : HeatmapData) : ℚ :=
  match paceStartEnd c with
  | none => 0
  | some (s, e) =>
    jsDiv ((parseETNoonDate e - parseETNoonDate s : Int) : ℚ) ((msPerHour : Int) : ℚ)

/-- The pace computation of `calculatePredictionsInternal`: `none` models the
`"-"` placeholder (the numeric value is rendered with `toLocaleString` for
display, which is presentation only). `cur` is the clamped current total. -/
def paceOf (now : Int) (cur : ℚ) (c : HeatmapData) : Option ℚ :=
  match paceStartEnd c with
  | none => none
  | some (s, e) =>
    let startMs := parseETNoonDate s
    let endMs := parseETNoonDate e
    let elapsedHours := jsMax 0 (jsDiv ((now - startMs : Int) : ℚ) ((msPerHour : Int) : ℚ))
    let totalHours := jsDiv ((endMs - startMs : Int) : ℚ) ((msPerHour : Int) : ℚ)
    if 0 < elapsedHours ∧ 0 < totalHours then
      let tweetsPerHour := jsDiv cur elapsedHours
      let remainingHours := jsMax 0 (jsSub totalHours elapsedHours)
      let projectedAdditional := jsMax 0 (jsMul tweetsPerHour remainingHours)
      some (jsMax cur (jsRound (jsAdd cur projectedAdditional)))
    else none

/-- Raw bounds-checked cell read of the comparable-average loop (`grid[h] &&
grid[h][d] !== undefined`, with *no* noon zeroing — the loop applies its own
`continue` rules). -/
def gridCellOrZero (grid : List (List ℚ)) (h d : Nat) : ℚ :=
  (grid.getD h []).getD d 0

/-- The `comparableAvgTotal` double loop of `calculatePredictionsInternal`:
sum of the average grid over the cells whose absolute hour from the window
start (day-0 noon) is below `elapsedHours`, skipping the disabled cells. -/
def comparableAvgTotalOf (elapsedHours : ℚ) (avgGrid : List (List ℚ)) : ℚ :=
  if 0 < elapsedHours then
    (List.range 8).foldl (fun acc (d : Nat) =>
      (List.range 24).foldl (fun acc2 (h : Nat) =>
        if d = 0 ∧ h < 12 then acc2
        else if d = 7 ∧ 12 ≤ h then acc2
        else
          let absoluteHourFromStart : Int :=
            if d = 0 then (h : Int) - 12 else (d : Int) * 24 - 12 + (h : Int)
          if ((absoluteHourFromStart : ℚ)) < elapsedHours then
            jsAdd acc2 (gridCellOrZero avgGrid h d)
          else acc2) acc) 0
  else 0

/-- The independent `dateRange && dateRange.start` guard used for the
momentum/prediction block. -/
def predStartStr (c : HeatmapData) : Option String :=
  match c.dateRange with
  | some (some s, _) => if dstrT s then some (resolveDateStr s) else none
  | _ => none

/-- The independent `dateRange && dateRange.end` guard. -/
def predEndStr (c : HeatmapData) : Option String :=
  match c.dateRange with
  | some (_, some e) => if dstrT e then some (resolveDateStr e) else none
  | _ => none

/-- The trend display string of `calculatePredictionsInternal` (strings are
copied byte-for-byte from the source file). -/
def trendDisplay (trendFactor : ℚ) : String :=
  if trendFactor > TREND_UP_THRESHOLD then
    "‚¨ÜÔ∏è Up " ++ toString (jsRoundInt (jsMul (jsSub trendFactor 1) 100)) ++ "%"
  else if trendFactor < TREND_DOWN_THRESHOLD then
    "‚¨áÔ∏è Down " ++ toString (jsRoundInt (jsMul (jsSub 1 trendFactor) 100)) ++ "%"
  else
    let changePercent := jsRoundInt (jsMul (jsSub trendFactor 1) 100)
    let sign := if 0 ≤ changePercent then "+" else ""
    "‚û°Ô∏è Stable " ++ sign ++ toString changePercent ++ "%"

/-- The momentum indicator string of `calculatePredictionsInternal`. -/
def momentumIndicatorOf (momentum : ℚ) : String :=
  if momentum > mkRat 115 100 then "‚ö° Accelerating"
  else if momentum < mkRat 85 100 then "üêå Slowing"
  else "‚Üí"

/-- The forecast bundle returned by `calculatePredictions`. -/
structure PredictionBundle where
  pace : Option ℚ
  next24h : ℚ
  next24hMin : ℚ
  next24hMax : ℚ
  endOfRange : ℚ
  endOfRangeMin : ℚ
  endOfRangeMax : ℚ
  trend : String
  trendFactor : ℚ
  momentum : ℚ
  momentumIndicator : String
deriving DecidableEq, Repr

/-- The early-return bundle for missing `currentData`/`avgData`. -/
def defaultBundle : PredictionBundle :=
  { pace := none
    next24h := 0
    next24hMin := 0
    next24hMax := 0
    endOfRange := 0
    endOfRangeMin := 0
    endOfRangeMax := 0
    trend := "‚û°Ô∏è Stable"
    trendFactor := 1
    momentum := 1
    momentumIndicator := "‚Üí" }

/-- The end-of-range block of `calculatePredictionsInternal`: returns
`(weekEndTotal, endOfRangeConfidence)`.  The JS loop
`for (let i = 0; i < hoursRemaining; i++)` over a fractional bound runs
`⌈hoursRemaining⌉` times.  `sqrtFn` stands for `Math.sqrt` (see header). -/
def endOfRangeBlock (now : Int) (sqrtFn : ℚ → ℚ) (cur : ℚ)
    (avgGrid : List (List ℚ)) (trendFactor momentum n24Std : ℚ)
    (range? : Option (String × String)) : ℚ × ConfInterval :=
  match range? with
  | none => (cur, { minV := cur, maxV := cur, stdDev := 0 })
  | some (s, e) =>
    let startMs := parseETNoonDate s
    let endMs := parseETNoonDate e
    let hoursRemaining := jsMax 0 (jsDiv ((endMs - now : Int) : ℚ) ((msPerHour : Int) : ℚ))
    if 0 < hoursRemaining then
      let iters := (Rat.ceil hoursRemaining).toNat
      let remainingPrediction := (List.range iters).foldl
        (fun acc (i : Nat) =>
          let futureTime := now + (i : Int) * msPerHour
          let hour := (getETComponents futureTime).hour
          let dayIndex := getDayIndexFromStart futureTime startMs
          if 0 ≤ dayIndex ∧ dayIndex ≤ 7 then
            let combinedFactor :=
              jsAdd (jsMul momentum (mkRat 3 10)) (jsMul trendFactor (mkRat 7 10))
            jsAdd acc (jsMul (getGridValue avgGrid hour dayIndex) combinedFactor)
          else acc)
        0
      let weekEndTotal := jsAdd cur remainingPrediction
      let scaledStdDev := jsMul n24Std (sqrtFn (jsDiv hoursRemaining 24))
      let margin := jsMul scaledStdDev (mkRat 15 10)
      (weekEndTotal,
        { minV := jsMax cur (jsRound (jsSub weekEndTotal margin))
          maxV := jsRound (jsAdd weekEndTotal margin)
          stdDev := scaledStdDev })
    else (cur, { minV := cur, maxV := cur, stdDev := 0 })

/-- `calculatePredictionsInternal(currentData, avgData)` from
`analytics.js`.  `now` is the wall clock read at entry (`new Date()`);
`sqrtFn` stands for `Math.sqrt`.  The in-place non-negativity clamps of
`currentData.current` / `avgData.current` are modelled by computing with the
clamped values everywhere after that point, as the mutation makes the JS do. -/
def calculatePredictionsInternal (now : Int) (sqrtFn : ℚ → ℚ)
    (currentData avgData : Option HeatmapData) : PredictionBundle :=
  match currentData, avgData with
  | some c, some a =>
    let cur := if c.current < 0 then 0 else c.current
    let avgCur := if a.current < 0 then 0 else a.current
    let pace := paceOf now cur c
    let elapsedHours := elapsedHoursAt now c
    let comparableAvgTotal := comparableAvgTotalOf elapsedHours a.grid
    let trendFactor := if 0 < comparableAvgTotal then jsDiv cur comparableAvgTotal else 1
    let momentum :=
      match predStartStr c with
      | some s => calculateRecentMomentum c.grid a.grid now (parseETNoonDate s) 6
      | none => 1
    let range? :=
      match predStartStr c, predEndStr c with
      | some s, some e => some (s, e)
      | _, _ => none
    let next24hTotal :=
      match range? with
      | some (s, e) =>
        predictNext24hWithPattern now a.grid avgCur trendFactor momentum
          (parseETNoonDate s) (parseETNoonDate e)
      | none => 0
    let next24hConfidence :=
      match range? with
      | some _ => calculatePredictionConfidence true next24hTotal
      | none => { minV := 0, maxV := 0, stdDev := 0 }
    let eor := endOfRangeBlock now sqrtFn cur a.grid trendFactor momentum
      next24hConfidence.stdDev range?
    { pace := pace
      next24h := jsMax 0 (jsRound next24hTotal)
      next24hMin := next24hConfidence.minV
      next24hMax := next24hConfidence.maxV
      endOfRange := jsMax 0 (jsRound eor.1)
      endOfRangeMin := eor.2.minV
      endOfRangeMax := eor.2.maxV
      trend := trendDisplay trendFactor
      trendFactor := trendFactor
      momentum := momentum
      momentumIndicator := momentumIndicatorOf momentum }
  | _, _ => defaultBundle

/-! ## Memoization of `calculatePredictions` -/

/-- Rendering of a JS number into the template-literal cache key.  Injective
on rationals, as the JS rendering is injective on doubles, so the two induce
the same key collisions on equal values. -/
def qKeyStr (q : ℚ) : String :=
  if q.den = 1 then toString q.num
  else toString q.num ++ "/" ++ toString q.den

/-- Rendering of an optional `dateRange` endpoint into the cache key
(`undefined` prints as `"undefined"`; a `Date` prints via `toString`,
modelled by its millisecond value — the JS rendering has only
second granularity, so the model conflates no more inputs than the JS). -/
def dstrKeyStr : Option DStr → String
  | none => "undefined"
  | some (.str s) => s
  | some (.date t) => "Date(" ++ toString t ++ ")"

/-- The memo key of `calculatePredictionsMemoized`:
`` `pred_${curr?.current}_${avg?.current}_${curr?.dateRange?.start}_${curr?.dateRange?.end}` ``. -/
def predKey (currentData avgData : Option HeatmapData) : String :=
  let currPart :=
    match currentData with
    | none => "undefined"
    | some c => qKeyStr c.current
  let avgPart :=
    match avgData with
    | none => "undefined"
    | some a => qKeyStr a.current
  let startPart :=
    match currentData with
    | none => "undefined"
    | some c =>
      match c.dateRange with
      | none => "undefined"
      | some (s, _) => dstrKeyStr s
  let endPart :=
    match currentData with
    | none => "undefined"
    | some c =>
      match c.dateRange with
      | none => "undefined"
      | some (_, e) => dstrKeyStr e
  "pred_" ++ currPart ++ "_" ++ avgPart ++ "_" ++ startPart ++ "_" ++ endPart

/-- The module-level `memoCache` of `src/utils/performance.js` (staged in
`src/utils/heatmapStyles.ts` after a document separator): a JS `Map` is
an insertion-ordered association list with unique keys, so the head is the
first-inserted entry and `memoCache.keys().next().value` is the head's
key.  `maxSize` is `MEMO_CACHE_MAX` (50).  The real map is shared by every
`memoize`d function; only the `pred_…` entries matter to
`calculatePredictions`, so entries stored by the other memoized functions
(keys `conf_…`, `avg_…`, never equal to a `pred_…` key) appear here as
slot-occupying entries under their own keys. -/
structure MemoCache where
  entries : List (String × PredictionBundle)
  maxSize : Nat
deriving DecidableEq, Repr

/-- `memoCache.has(key)` / `memoCache.get(key)` combined: plain lookup. -/
def cacheFind (cache : MemoCache) (k : String) : Option PredictionBundle :=
  (cache.entries.find? (fun e => e.1 == k)).map Prod.snd

/-- One call of the closure returned by `memoize(fn, keyGenerator)`
(`performance.js`): with `key = keyGenerator(...args)`, a `memoCache.has`
hit returns `memoCache.get(key)` and leaves the map untouched (no recency
refresh); on a miss, if `memoCache.size >= MEMO_CACHE_MAX` the
first-inserted key is deleted (FIFO eviction), then `fn(...args)` is
computed, stored under `key` (appended — the key is absent, so `set`
inserts at the end), and returned. -/
def memoizeStep (cache : MemoCache) (k : String)
    (compute : Unit → PredictionBundle) : PredictionBundle × MemoCache :=
  match cacheFind cache k with
  | some v => (v, cache)
  | none =>
    let room := if cache.maxSize ≤ cache.entries.length
      then cache.entries.tail else cache.entries
    let r := compute ()
    (r, { cache with entries := room ++ [(k, r)] })

/-- `calculatePredictionsMemoized` / exported `calculatePredictions`:
the memoized wrapper, threading the module-level cache state. -/
def calculatePredictionsMemoized (cache : MemoCache) (now : Int)
    (sqrtFn : ℚ → ℚ) (currentData avgData : Option HeatmapData) :
    PredictionBundle × MemoCache :=
  memoizeStep cache (predKey currentData avgData)
    (fun _ => calculatePredictionsInternal now sqrtFn currentData avgData)

/-! ## `calculate4WeekAverage` (`src/data/analytics.js`) -/

/-- The result record of `calculate4WeekAverageInternal` (`dateRange` is
kept as the raw strings). -/
structure AvgResult where
  grid : List (List ℚ)
  hours : List String
  days : List String
  totals : List ℚ
  current : ℚ
  maxValue : ℚ
  peakHour : String
  mostActiveDay : String
  dateRangeStart : Option String
  dateRangeEnd : Option String
deriving DecidableEq, Repr

/-- `calculate4WeekAverageInternal(tweets, currentStartDate,
currentEndDate)` from `analytics.js`.  `now` is the wall clock (used by
`parseTwitterDate` for year-less strings and by the no-start-date fallback,
whose find-last-Friday loop is the same stepping loop as
`findRecentDayOfWeek`).  The day-label loop is the same computation as
`generateDayLabels`.  The `weekCounts` array of the source is written but
never read and is omitted.  Returns `none` exactly where the JS returns
`null`. -/
def calculate4WeekAverageInternal (now : Int) (tweets : List Tweet)
    (currentStartDate currentEndDate : Option String) : Option AvgResult :=
  match tweets with
  | [] => none
  | _ =>
    let hours := (List.range 24).map (fun (i : Nat) => formatHour (i : Int))
    let sOpt :=
      match currentStartDate with
      | some s => if s ≠ "" then some s else none
      | none => none
    let days :=
      match sOpt with
      | some s => generateDayLabels (parseETNoonDate s) 8
      | none => ["FRI", "SAT", "SUN", "MON", "TUE", "WED", "THU", "FRI"]
    let currentWeekStart :=
      match sOpt with
      | some s => parseETNoonDate s
      | none => parseETNoonDate (fmtDateET (getETComponents (findRecentDayOfWeek now 5)))
    let init : List (List ℚ) := List.replicate 24 (List.replicate 8 0)
    let totalsGrid := (List.range WEEKS_FOR_TREND).foldl
      (fun g (wk : Nat) =>
        let week := (wk : Int) + 1
        let weekStart := currentWeekStart - week * 7 * msPerDay
        let weekEnd := weekStart + 8 * msPerDay
        let weekStartDateStr := fmtDateET (getETComponents weekStart)
        let weekStartDayNoon := parseETNoonDate weekStartDateStr
        tweets.foldl
          (fun g2 tw =>
            match parseTwitterDate now tw.created_at with
            | none => g2
            | some date =>
              if weekStart ≤ date ∧ date < weekEnd then
                let dateET := getETComponents date
                let hour := dateET.hour
                let tweetDateStr := fmtDateET dateET
                let tweetDayNoon := parseETNoonDate tweetDateStr
                let daysDiff := jsRoundInt
                  (jsDiv ((tweetDayNoon - weekStartDayNoon : Int) : ℚ) ((msPerDay : Int) : ℚ))
                if 0 ≤ daysDiff ∧ daysDiff ≤ 7 then
                  if daysDiff = 0 ∧ hour < 12 then g2
                  else if daysDiff = 7 ∧ 12 ≤ hour then g2
                  else updAt g2 hour.toNat (fun row =>
                    updAt row daysDiff.toNat (fun v => jsAdd v 1))
                else g2
              else g2)
          g)
      init
    let avgGrid := totalsGrid.map (fun hourRow =>
      hourRow.map (fun total => jsDiv (jsRound (jsMul (jsDiv total 4) 10)) 10))
    let avgTotals := (List.range days.length).map (fun (dayIndex : Nat) =>
      jsRound ((List.range 24).foldl
        (fun total (hourIndex : Nat) =>
          if dayIndex = 0 ∧ hourIndex < 12 then total
          else if dayIndex = days.length - 1 ∧ 12 ≤ hourIndex then total
          else jsAdd total (gridCellOrZero avgGrid hourIndex dayIndex))
        0))
    let maxValue := avgGrid.flatten.foldl jsMax 0
    some
      { grid := avgGrid
        hours := hours
        days := days
        totals := avgTotals
        current := avgTotals.foldl jsAdd 0
        maxValue := maxValue
        peakHour := formatHour ((avgGrid.findIdx (fun row => row.contains maxValue)) : Int)
        mostActiveDay := days.getD (avgTotals.findIdx (· == avgTotals.foldl jsMax 0)) ""
        dateRangeStart := currentStartDate
        dateRangeEnd := currentEndDate }

/-- An empty-grid record (sample input for concrete evaluations). -/
def emptyHD : HeatmapData :=
  { grid := [], current := 0, dateRange := none }

/-- Sample current-window record: 5 events, window 2025-09-05 → 2025-09-06. -/
def hdCur5 : HeatmapData :=
  { grid := [], current := 5,
     dateRange := some (some (.str "2025-09-05"), some (.str "2025-09-06")) }

/-- Sample current-window record: 7 events, window 2025-09-05 → 2025-09-12. -/
def hdCur7 : HeatmapData :=
  { grid := [], current := 7,
     dateRange := some (some (.str "2025-09-05"), some (.str "2025-09-12")) }

/-- All-zero 24×8 rational grid. -/
def zeroGridQ : List (List ℚ) :=
  List.replicate 24 (List.replicate 8 0)

/-- Average data with an all-zero pattern and headline count 400. -/
def hdAvgZero : HeatmapData :=
  { grid := zeroGridQ, current := 400, dateRange := none }

/-- Average data with the same headline count 400 but 50 events in cell
`[13][1]` — distinct from `hdAvgZero` yet sharing its memo key. -/
def hdAvgSpike : HeatmapData :=
  { grid := updAt zeroGridQ 13 (fun row => updAt row 1 (fun _ => 50)),
    current := 400, dateRange := none }

/-- Current-window data: 100 events, window 2025-09-05 → 2025-09-12. -/
def hdCur100 : HeatmapData :=
  { grid := [], current := 100,
    dateRange := some (some (.str "2025-09-05"), some (.str "2025-09-12")) }

def memoNow : Int := parseETNoonDate "2025-09-20"

def memoCache0 : MemoCache := { entries := [], maxSize := 50 }

/-! ## Theorems and evaluations -/

example : daysFromCivil 1970 1 1 = 0 := by decide

example : civilFromDays 0 = (1970, 1, 1) := by decide

example : weekdayFromDays (daysFromCivil 2025 9 20) = 6 := by decide

example : firstSundayOfMonth 2025 3 + 7 = 9 := by decide

example : getETComponents (createETNoonDate 2025 9 20) =
    ⟨2025, 8, 20, 12, 0, 0, 6⟩ := by decide

example : getETComponents (createETNoonDate 2025 3 9) =
    ⟨2025, 2, 9, 13, 0, 0, 0⟩ := by decide

example : parseETNoonDate "2025-03-13" = dateUTC 2025 3 13 17 0 0 := by decide

example : parseETNoonDate "2025-03-14" = dateUTC 2025 3 14 16 0 0 := by decide

example : parseTwitterDate 0 "Mar 14, 2025, 05:00:00 AM EDT" =
    some (dateUTC 2025 3 14 9 0 0) := by decide

example : parseTwitterDate 0 "Jan 01, 2020, 01:00:00 PM EST" =
    some (dateUTC 2020 1 1 18 0 0) := by decide

example : parseTwitterDate 0 "not a date" = none := by decide

example :
    getETComponents ((parseTwitterDate 0 "Mar 14, 2025, 05:00:00 AM EDT").getD 0) =
      ⟨2025, 2, 14, 5, 0, 0, 5⟩ := by decide

example :
    (processData (parseETNoonDate "2025-03-20")
      [⟨"Mar 14, 2025, 05:00:00 AM EDT"⟩]
      (some "2025-03-13") (some "2025-03-20")).current = 1 := by decide

example :
    cellGet (processData (parseETNoonDate "2025-03-20")
      [⟨"Mar 14, 2025, 05:00:00 AM EDT"⟩]
      (some "2025-03-13") (some "2025-03-20")).grid 5 0 = 1 := by decide

example :
    (processData (parseETNoonDate "2025-03-20")
      [⟨"Mar 14, 2025, 05:00:00 AM EDT"⟩]
      (some "2025-03-13") (some "2025-03-20")).totals.sum = 0 := by decide

/-! ### Structural lemmas about the grid builder -/

theorem updAt_length {α : Type} (l : List α) (n : Nat) (f : α → α) :
    (updAt l n f).length = l.length := by
  induction l generalizing n with
  | nil => rfl
  | cons x rest ih =>
    cases n with
    | zero => rfl
    | succ k => simpa [updAt] using ih k

theorem mem_updAt {α : Type} {l : List α} {n : Nat} {f : α → α} {r : α}
    (h : r ∈ updAt l n f) : r ∈ l ∨ ∃ y ∈ l, r = f y := by
  induction l generalizing n with
  | nil => simp [updAt] at h
  | cons x rest ih =>
    cases n with
    | zero =>
      rcases List.mem_cons.mp h with h1 | h1
      · exact Or.inr ⟨x, List.mem_cons_self x rest, h1⟩
      · exact Or.inl (List.mem_cons_of_mem x h1)
    | succ k =>
      rcases List.mem_cons.mp h with h1 | h1
      · exact Or.inl (h1 ▸ List.mem_cons_self x rest)
      · rcases ih h1 with h2 | ⟨y, hy, hr⟩
        · exact Or.inl (List.mem_cons_of_mem x h2)
        · exact Or.inr ⟨y, List.mem_cons_of_mem x hy, hr⟩

theorem gridShape_updAt {g : List (List Nat)} {k : Nat} (hg : GridShape g k)
    (h d : Nat) : GridShape (updAt g h (fun row => updAt row d (· + 1))) k := by
  refine ⟨by rw [updAt_length]; exact hg.1, fun row hrow => ?_⟩
  rcases mem_updAt hrow with h1 | ⟨y, hy, hr⟩
  · exact hg.2 row h1
  · rw [hr, updAt_length]
    exact hg.2 y hy

theorem bucketStep_shape {now : Int} {rp : Option (String × String)} {k : Nat}
    {st : List (List Nat) × Nat} (hg : GridShape st.1 k) (tw : Tweet) :
    GridShape (bucketStep now rp k st tw).1 k := by
  unfold bucketStep
  rcases parseTwitterDate now tw.created_at with _ | date
  · exact hg
  · simp only []
    split
    · exact hg
    · rcases rp with _ | ⟨s, e⟩ <;> simp only [] <;> (repeat' split) <;>
        first
        | exact gridShape_updAt hg _ _
        | exact hg

theorem foldl_bucket_shape (now : Int) (rp : Option (String × String)) (k : Nat)
    (tweets : List Tweet) (st : List (List Nat) × Nat) (hg : GridShape st.1 k) :
    GridShape (tweets.foldl (bucketStep now rp k) st).1 k := by
  induction tweets generalizing st with
  | nil => exact hg
  | cons tw rest ih => exact ih _ (bucketStep_shape hg tw)

theorem getD_mem_or_default {α : Type} (l : List α) (i : Nat) (dflt : α) :
    l.getD i dflt ∈ l ∨ l.getD i dflt = dflt := by
  induction l generalizing i with
  | nil => exact Or.inr rfl
  | cons x rest ih =>
    cases i with
    | zero => exact Or.inl (List.mem_cons_self x rest)
    | succ j =>
      rcases ih j with h | h
      · exact Or.inl (List.mem_cons_of_mem x (by simpa using h))
      · exact Or.inr (by simpa using h)

theorem cellGet_eq_zero {g : List (List Nat)}
    (hz : ∀ row ∈ g, ∀ x ∈ row, x = 0) (h d : Nat) : cellGet g h d = 0 := by
  unfold cellGet
  rcases getD_mem_or_default g h [] with hrow | hrow
  · rcases getD_mem_or_default (g.getD h []) d 0 with hx | hx
    · exact hz _ hrow _ hx
    · exact hx
  · rw [hrow]
    rfl

theorem foldl_fixed {β : Type} (l : List β) (f : Nat → β → Nat) (a : Nat)
    (h : ∀ t x, x ∈ l → f t x = t) : l.foldl f a = a := by
  induction l generalizing a with
  | nil => rfl
  | cons x rest ih =>
    rw [List.foldl_cons, h a x (List.mem_cons_self x rest)]
    exact ih a (fun t y hy => h t y (List.mem_cons_of_mem x hy))

theorem foldl_max_zeros {l : List Nat} (hz : ∀ x ∈ l, x = 0) (a : Nat) :
    l.foldl Nat.max a = a := by
  induction l generalizing a with
  | nil => rfl
  | cons x rest ih =>
    rw [List.foldl_cons, hz x (List.mem_cons_self x rest)]
    have hm : a.max 0 = a := Nat.max_zero a
    rw [hm]
    exact ih (fun y hy => hz y (List.mem_cons_of_mem x hy)) a

theorem mem_procTotals_zero {g : List (List Nat)} {k : Nat}
    (hz : ∀ row ∈ g, ∀ x ∈ row, x = 0) : ∀ t ∈ procTotals g k, t = 0 := by
  intro t ht
  unfold procTotals at ht
  rcases List.mem_map.mp ht with ⟨d, _, rfl⟩
  refine foldl_fixed _ _ _ ?_
  intro acc h _
  split
  · rfl
  · split
    · rfl
    · simp [cellGet_eq_zero hz]

theorem procTotals_length (g : List (List Nat)) (k : Nat) :
    (procTotals g k).length = k := by
  simp [procTotals]

theorem generateDayLabels_length (start : Int) (c : Nat) :
    (generateDayLabels start c).length = c := by
  unfold generateDayLabels
  rw [List.length_map, List.length_range]

theorem procDays_length_pos (rp : Option (String × String)) :
    0 < (procDays rp).length := by
  rcases rp with _ | ⟨s, e⟩
  · simp [procDays]
  · simp [procDays, generateDayLabels_length]

theorem findIdx_head_true {α : Type} (p : α → Bool) (x : α) (xs : List α)
    (hx : p x = true) : List.findIdx p (x :: xs) = 0 := by
  simp [List.findIdx_cons, hx]

/-- **C10**: whenever `processData` counts no event into any grid cell (the
returned grid is all zeros), the result still reports `maxValue = 0`,
`peakHour = "12 AM"` (the label of hour row 0) and `mostActiveDay` equal to
the first day label — indistinguishable from a grid whose genuine peak is
hour 0 / day 0. -/
theorem processData_zero_grid_peak_defaults
    (now : Int) (tweets : List Tweet) (startDate endDate : Option String)
    (hz : ∀ row ∈ (processData now tweets startDate endDate).grid,
      ∀ x ∈ row, x = 0) :
    (processData now tweets startDate endDate).maxValue = 0 ∧
      (processData now tweets startDate endDate).peakHour = "12 AM" ∧
      (processData now tweets startDate endDate).mostActiveDay =
        (processData now tweets startDate endDate).days.getD 0 "" := by
  simp only [processData] at hz ⊢
  set rp := procRangeParams startDate endDate with hrp
  set k := (procDays rp).length with hkdef
  set g := (tweets.foldl (bucketStep now rp k)
    (List.replicate 24 (List.replicate k 0), 0)).1 with hgdef
  have hkpos : 0 < k := procDays_length_pos rp
  have hshape : GridShape g k := by
    refine foldl_bucket_shape now rp k tweets _ ⟨by simp, ?_⟩
    intro row hrow
    rw [List.eq_of_mem_replicate hrow]
    simp
  have hflat : ∀ x ∈ g.flatten, x = 0 := by
    intro x hx
    rcases List.mem_flatten.mp hx with ⟨row, hrow, hxr⟩
    exact hz row hrow x hxr
  have hmax : g.flatten.foldl Nat.max 0 = 0 := foldl_max_zeros hflat 0
  have htz : ∀ t ∈ procTotals g k, t = 0 := mem_procTotals_zero hz
  have hmt : (procTotals g k).foldl Nat.max 0 = 0 := foldl_max_zeros htz 0
  obtain ⟨r0, grest, hgcons⟩ : ∃ r0 grest, g = r0 :: grest := by
    rcases g with _ | ⟨r0, grest⟩
    · exact absurd hshape.1 (by simp)
    · exact ⟨r0, grest, rfl⟩
  have hr0len : r0.length = k := hshape.2 r0 (hgcons ▸ List.mem_cons_self r0 grest)
  obtain ⟨x0, r0rest, hr0cons⟩ : ∃ x0 r0rest, r0 = x0 :: r0rest := by
    rcases r0 with _ | ⟨x0, r0rest⟩
    · rw [List.length_nil] at hr0len
      omega
    · exact ⟨x0, r0rest, rfl⟩
  have hx0 : x0 = 0 :=
    hz r0 (hgcons ▸ List.mem_cons_self r0 grest)
      x0 (hr0cons ▸ List.mem_cons_self x0 r0rest)
  have hcontains : r0.contains 0 = true := by
    rw [hr0cons, hx0]
    simp [List.contains]
  have hfind : g.findIdx (fun row => row.contains (g.flatten.foldl Nat.max 0)) = 0 := by
    rw [hmax, hgcons]
    exact findIdx_head_true _ r0 grest hcontains
  obtain ⟨t0, ts, htcons⟩ : ∃ t0 ts, procTotals g k = t0 :: ts := by
    rcases hpt : procTotals g k with _ | ⟨t0, ts⟩
    · have := procTotals_length g k
      rw [hpt] at this
      simp at this
      omega
    · exact ⟨t0, ts, rfl⟩
  have ht0 : t0 = 0 := htz t0 (htcons ▸ List.mem_cons_self t0 ts)
  have hfindT : (procTotals g k).findIdx
      (· == (procTotals g k).foldl Nat.max 0) = 0 := by
    rw [hmt, htcons]
    refine findIdx_head_true _ t0 ts ?_
    rw [ht0]
    simp
  refine ⟨hmax, ?_, ?_⟩
  · rw [hfind]
    decide
  · rw [hfindT]

theorem inferYearsAux_length (y last : Int) (months : List Int) :
    (inferYearsAux y last months).length = months.length := by
  induction months generalizing y last with
  | nil => rfl
  | cons m rest ih => simpa [inferYearsAux] using ih _ m

theorem inferYearsAux_adjacent (y last : Int) (months : List Int) (i : Nat)
    (hi : i + 1 < months.length) :
    (inferYearsAux y last months).getD (i + 1) 0 =
      (if months.getD (i + 1) 0 > months.getD i 0 ∧ months.getD i 0 ≠ 13
        then (inferYearsAux y last months).getD i 0 - 1
        else (inferYearsAux y last months).getD i 0) := by
  induction months generalizing y last i with
  | nil => simp at hi
  | cons m rest ih =>
    cases i with
    | zero =>
      rcases rest with _ | ⟨m2, rest2⟩
      · simp at hi
      · simp [inferYearsAux]
    | succ j =>
      have hj : j + 1 < rest.length := by
        simpa using hi
      simpa [inferYearsAux] using ih _ m j hj

example :
    calculate4WeekAverageInternal (parseETNoonDate "2025-09-20") []
      (some "2025-09-05") (some "2025-09-12") = none := by decide

example :
    (calculate4WeekAverageInternal (parseETNoonDate "2025-09-20")
      [⟨"Jan 01, 2020, 01:00:00 PM EST"⟩]
      (some "2025-09-05") (some "2025-09-12")).isSome = true := by decide

/-! ## Claim theorems -/

theorem jsAdd_eq (a b : ℚ) : jsAdd a b = a + b := by
  unfold jsAdd
  rw [Rat.divInt_eq_div]
  conv_rhs => rw [← Rat.num_div_den a, ← Rat.num_div_den b]
  have ha : ((a.den : ℚ)) ≠ 0 := by
    exact_mod_cast a.den_nz
  have hb : ((b.den : ℚ)) ≠ 0 := by
    exact_mod_cast b.den_nz
  push_cast
  field_simp

theorem jsSub_eq (a b : ℚ) : jsSub a b = a - b := by
  unfold jsSub
  rw [Rat.divInt_eq_div]
  conv_rhs => rw [← Rat.num_div_den a, ← Rat.num_div_den b]
  have ha : ((a.den : ℚ)) ≠ 0 := by
    exact_mod_cast a.den_nz
  have hb : ((b.den : ℚ)) ≠ 0 := by
    exact_mod_cast b.den_nz
  push_cast
  field_simp
  ring

theorem jsMul_eq (a b : ℚ) : jsMul a b = a * b := by
  unfold jsMul
  rw [Rat.divInt_eq_div]
  conv_rhs => rw [← Rat.num_div_den a, ← Rat.num_div_den b]
  have ha : ((a.den : ℚ)) ≠ 0 := by
    exact_mod_cast a.den_nz
  have hb : ((b.den : ℚ)) ≠ 0 := by
    exact_mod_cast b.den_nz
  push_cast
  field_simp

theorem jsDiv_eq (a b : ℚ) : jsDiv a b = a / b := by
  unfold jsDiv
  rw [Rat.divInt_eq_div]
  rcases eq_or_ne b 0 with hb | hb
  · subst hb
    simp
  · have hbn : ((b.num : ℚ)) ≠ 0 := by
      exact_mod_cast Rat.num_ne_zero.mpr hb
    have ha : ((a.den : ℚ)) ≠ 0 := by
      exact_mod_cast a.den_nz
    have hbd : ((b.den : ℚ)) ≠ 0 := by
      exact_mod_cast b.den_nz
    conv_rhs => rw [← Rat.num_div_den a, ← Rat.num_div_den b]
    push_cast
    rw [div_div_div_eq]

theorem jsMax_eq (a b : ℚ) : jsMax a b = max a b := by
  unfold jsMax
  by_cases h : a ≤ b
  · simp [h, max_eq_right h]
  · simp [h, max_eq_left (le_of_not_le h)]

theorem le_jsMax_left (a b : ℚ) : a ≤ jsMax a b := by
  rw [jsMax_eq]
  exact le_max_left a b

theorem mkRat_half : (mkRat 1 2 : ℚ) = 1/2 := by
  rw [Rat.mkRat_eq_div]
  norm_num

theorem jsRoundInt_eq (q : ℚ) : jsRoundInt q = Int.floor (q + 1/2) := by
  unfold jsRoundInt
  rw [jsAdd_eq, mkRat_half]
  rfl

theorem jsRound_eq (q : ℚ) : jsRound q = ((Int.floor (q + 1/2) : Int) : ℚ) := by
  unfold jsRound
  rw [jsRoundInt_eq]

theorem endOfRangeBlock_min_ge (now : Int) (sqrtFn : ℚ → ℚ) (cur : ℚ)
    (avgGrid : List (List ℚ)) (trendFactor momentum n24Std : ℚ)
    (range? : Option (String × String)) :
    cur ≤ (endOfRangeBlock now sqrtFn cur avgGrid trendFactor momentum
      n24Std range?).2.minV := by
  unfold endOfRangeBlock
  rcases range? with _ | ⟨s, e⟩
  · exact le_refl cur
  · simp only []
    split
    · exact le_jsMax_left _ _
    · exact le_refl cur

/-- **C4** (amended): for every pair of *present* inputs, the
`endOfRangeMin` of the bundle returned by `calculatePredictions` is at least
`currentData.current` — the floor survives every branch (no remaining hours,
missing range strings, any `Math.sqrt` behaviour).  With a missing
`avgData` the early-return bundle reports `endOfRangeMin = 0` instead (see
the counterexample). -/
theorem calculatePredictions_endOfRangeMin_ge_current (now : Int)
    (sqrtFn : ℚ → ℚ) (c a : HeatmapData) :
    c.current ≤
      (calculatePredictionsInternal now sqrtFn (some c) (some a)).endOfRangeMin := by
  have h1 : c.current ≤ (if c.current < 0 then 0 else c.current) := by
    split
    · linarith
    · exact le_refl _
  refine le_trans h1 ?_
  exact endOfRangeBlock_min_ge _ _ _ _ _ _ _ _

/-- **C4** (counterexample): with `avgData` null and a current total of 50,
the returned bundle's `endOfRangeMin` is 0, strictly below the current
actual total — the claim fails in the null-average case it includes. -/
theorem predictions_null_avg_floor_violated :
    (calculatePredictionsInternal 0 (fun _ => 0)
        (some { grid := [], current := 50, dateRange := none }) none).endOfRangeMin
      < (50 : ℚ) := by decide

theorem nat_le_jsRound_add {n : ℕ} {x : ℚ} (hx : 0 ≤ x) :
    ((n : ℚ)) ≤ jsRound ((n : ℚ) + x) := by
  rw [jsRound_eq]
  have h1 : ((n : Int) : ℚ) ≤ ((⌊(n : ℚ) + x + 1/2⌋ : Int) : ℚ) := by
    rw [Int.cast_le]
    apply Int.le_floor.mpr
    push_cast
    linarith
  simpa using h1

/-- **C7** (amended): when the window has begun and not yet ended
(`0 < elapsedHours ≤ totalHours`) and the current total is a nonnegative
integer (as every event count is), the bundle's pace is exactly
`round(current + (current/elapsedHours)·(totalHours − elapsedHours))`;
when `elapsedHours = 0` the pace is the `"-"` placeholder (modelled `none`),
not the current total. -/
theorem calculatePredictions_pace (now : Int) (sqrtFn : ℚ → ℚ)
    (c a : HeatmapData) (n : ℕ) (hc : c.current = (n : ℚ)) :
    (0 < elapsedHoursAt now c → elapsedHoursAt now c ≤ totalHoursAt c →
      (calculatePredictionsInternal now sqrtFn (some c) (some a)).pace =
        some (jsRound (c.current + c.current / elapsedHoursAt now c *
          (totalHoursAt c - elapsedHoursAt now c)))) ∧
    (elapsedHoursAt now c = 0 →
      (calculatePredictionsInternal now sqrtFn (some c) (some a)).pace = none) := by
  have hclamp : (if c.current < 0 then 0 else c.current) = c.current := by
    rw [hc]
    split
    · exfalso
      have : (0 : ℚ) ≤ (n : ℚ) := by positivity
      linarith
    · rfl
  have hpace : (calculatePredictionsInternal now sqrtFn (some c) (some a)).pace
      = paceOf now c.current c := by
    simp only [calculatePredictionsInternal, hclamp]
  rw [hpace, hc]
  rcases hse : paceStartEnd c with _ | ⟨s, e⟩
  · have hE : elapsedHoursAt now c = 0 := by
      simp [elapsedHoursAt, hse]
    refine ⟨?_, ?_⟩
    · intro h1 _
      rw [hE] at h1
      exact absurd h1 (lt_irrefl 0)
    · intro _
      simp [paceOf, hse]
  · have hE : elapsedHoursAt now c =
        max 0 (((now - parseETNoonDate s : Int) : ℚ) / ((msPerHour : Int) : ℚ)) := by
      simp [elapsedHoursAt, hse, jsMax_eq, jsDiv_eq]
    have hT : totalHoursAt c =
        ((parseETNoonDate e - parseETNoonDate s : Int) : ℚ) / ((msPerHour : Int) : ℚ) := by
      simp [totalHoursAt, hse, jsDiv_eq]
    rw [hE, hT]
    refine ⟨?_, ?_⟩
    · intro h1 h2
      simp only [paceOf, hse, jsMax_eq, jsDiv_eq, jsSub_eq, jsMul_eq, jsAdd_eq]
      set E := max 0 (((now - parseETNoonDate s : Int) : ℚ) / ((msPerHour : Int) : ℚ))
        with hEdef
      set T := ((parseETNoonDate e - parseETNoonDate s : Int) : ℚ) / ((msPerHour : Int) : ℚ)
        with hTdef
      rw [if_pos ⟨h1, lt_of_lt_of_le h1 h2⟩]
      have hrem : max 0 (T - E) = T - E := max_eq_right (by linarith)
      rw [hrem]
      have hx : (0 : ℚ) ≤ (n : ℚ) / E * (T - E) :=
        mul_nonneg (div_nonneg (by positivity) (le_of_lt h1)) (by linarith)
      rw [max_eq_right hx, max_eq_right (nat_le_jsRound_add hx)]
    · intro h0
      simp only [paceOf, hse, jsMax_eq, jsDiv_eq, jsSub_eq, jsMul_eq, jsAdd_eq]
      rw [if_neg]
      intro hcon
      rw [h0] at hcon
      exact absurd hcon.1 (lt_irrefl 0)

/-- **C7** (counterexample): at a window that has not yet begun
(`elapsedHours = 0`), the pace is the `"-"` placeholder, not the current
total 5 the claim requires. -/
theorem calculatePredictions_pace_zero_elapsed_cex :
    elapsedHoursAt (parseETNoonDate "2025-09-05") hdCur5 = 0 ∧
      (calculatePredictionsInternal (parseETNoonDate "2025-09-05") (fun _ => 0)
        (some hdCur5) (some emptyHD)).pace ≠ some (5 : ℚ) := by decide

/-- Witness for `calculatePredictions_pace`: 10 hours into a 7-day window
with 7 events. -/
theorem calculatePredictions_pace_witness :
    (calculatePredictionsInternal (parseETNoonDate "2025-09-05" + 10 * msPerHour)
        (fun _ => 0) (some hdCur7) (some emptyHD)).pace =
      some (jsRound ((7 : ℚ) +
        7 / elapsedHoursAt (parseETNoonDate "2025-09-05" + 10 * msPerHour) hdCur7 *
        (totalHoursAt hdCur7 -
          elapsedHoursAt (parseETNoonDate "2025-09-05" + 10 * msPerHour) hdCur7))) :=
  (calculatePredictions_pace _ _ _ _ 7 (by norm_num [hdCur7])).1 (by decide) (by decide)

/-- **C8**: the bundle's trend string is computed from its `trendFactor` by
the fixed classification: strictly above `TREND_UP_THRESHOLD` (1.15) is
"Up", strictly below `TREND_DOWN_THRESHOLD` (0.85) is "Down", and the whole
closed band `[0.85, 1.15]` — both boundary values included — is "Stable",
whose label still carries the signed percentage
`round((trendFactor − 1)·100)`. -/
theorem calculatePredictions_trend_classification (now : Int)
    (sqrtFn : ℚ → ℚ) (c a : HeatmapData) (tf : ℚ) :
    ((calculatePredictionsInternal now sqrtFn (some c) (some a)).trend =
      trendDisplay
        (calculatePredictionsInternal now sqrtFn (some c) (some a)).trendFactor) ∧
    (TREND_UP_THRESHOLD < tf →
      trendDisplay tf = "‚¨ÜÔ∏è Up " ++ toString (jsRoundInt ((tf - 1) * 100)) ++ "%") ∧
    (tf < TREND_DOWN_THRESHOLD →
      trendDisplay tf = "‚¨áÔ∏è Down " ++ toString (jsRoundInt ((1 - tf) * 100)) ++ "%") ∧
    (TREND_DOWN_THRESHOLD ≤ tf → tf ≤ TREND_UP_THRESHOLD →
      trendDisplay tf = "‚û°Ô∏è Stable " ++
        (if 0 ≤ jsRoundInt ((tf - 1) * 100) then "+" else "") ++
        toString (jsRoundInt ((tf - 1) * 100)) ++ "%") := by
  refine ⟨rfl, ?_, ?_, ?_⟩
  · intro h
    unfold trendDisplay
    rw [if_pos h]
    rw [jsMul_eq, jsSub_eq]
  · intro h
    have hud : ¬TREND_UP_THRESHOLD < tf := by
      unfold TREND_UP_THRESHOLD
      unfold TREND_DOWN_THRESHOLD at h
      intro hcon
      rw [Rat.mkRat_eq_div] at h hcon
      norm_num at h hcon
      linarith
    unfold trendDisplay
    rw [if_neg hud, if_pos h]
    rw [jsMul_eq, jsSub_eq]
  · intro h1 h2
    unfold trendDisplay
    rw [if_neg (not_lt.mpr h2), if_neg (not_lt.mpr h1)]
    simp only [jsMul_eq, jsSub_eq]

/-- Witness for `calculatePredictions_trend_classification`: both exact
boundary values 1.15 and 0.85 classify as "Stable" with their signed
percentages. -/
theorem calculatePredictions_trend_classification_witness :
    (trendDisplay 1.15 = "‚û°Ô∏è Stable " ++
      (if 0 ≤ jsRoundInt (((1.15 : ℚ) - 1) * 100) then "+" else "") ++
      toString (jsRoundInt (((1.15 : ℚ) - 1) * 100)) ++ "%") ∧
    (trendDisplay 0.85 = "‚û°Ô∏è Stable " ++
      (if 0 ≤ jsRoundInt (((0.85 : ℚ) - 1) * 100) then "+" else "") ++
      toString (jsRoundInt (((0.85 : ℚ) - 1) * 100)) ++ "%") :=
  ⟨(calculatePredictions_trend_classification 0 (fun _ => 0) emptyHD emptyHD 1.15).2.2.2
      (by unfold TREND_DOWN_THRESHOLD; norm_num)
      (by unfold TREND_UP_THRESHOLD; norm_num),
    (calculatePredictions_trend_classification 0 (fun _ => 0) emptyHD emptyHD 0.85).2.2.2
      (by unfold TREND_DOWN_THRESHOLD; norm_num)
      (by unfold TREND_UP_THRESHOLD; norm_num)⟩

/-- **C1** (failing input): on 2025-03-09 — the actual 2025 US
spring-forward date, which `createETNoonDate`'s simplified "March 14 –
November 7" rule misclassifies as EST — the constructed instant reads
13:00 (1 PM), not 12:00, on the `America/New_York` wall clock, so
`getETComponents(createETNoonDate(y,m,d)).hour = 12` fails. -/
theorem createETNoonDate_dst_not_noon :
    (getETComponents (createETNoonDate 2025 3 9)).hour = 13 ∧
      (getETComponents (createETNoonDate 2025 3 9)).minute = 0 ∧
      (getETComponents (createETNoonDate 2025 3 9)).year = 2025 ∧
      (getETComponents (createETNoonDate 2025 3 9)).month = 2 ∧
      (getETComponents (createETNoonDate 2025 3 9)).day = 9 := by decide

/-- **C2** (failing input): for the noon-to-noon window
2025-03-13 → 2025-03-20 (which straddles `createETNoonDate`'s simplified
DST boundary of March 14) and a single event at 5:00 AM ET on
March 14 2025, `processData`'s millisecond-division day offset lands the
event in the disabled cell `[5][0]` and counts it into `current`
(`current = 1`), while every column total excludes it (`Σ totals = 0`):
`current` is not the sum of the non-disabled cells. -/
theorem processData_disabled_cell_counted :
    cellGet (processData (parseETNoonDate "2025-03-20")
        [⟨"Mar 14, 2025, 05:00:00 AM EDT"⟩]
        (some "2025-03-13") (some "2025-03-20")).grid 5 0 = 1 ∧
      (processData (parseETNoonDate "2025-03-20")
        [⟨"Mar 14, 2025, 05:00:00 AM EDT"⟩]
        (some "2025-03-13") (some "2025-03-20")).current = 1 ∧
      (processData (parseETNoonDate "2025-03-20")
        [⟨"Mar 14, 2025, 05:00:00 AM EDT"⟩]
        (some "2025-03-13") (some "2025-03-20")).totals.sum = 0 := by decide

/-- **C3** (counterexample): with the clock at 15:00 ET on Saturday
2025-09-20, the first window produced by the Friday-pattern enumerator
pipeline (`findRecentDayOfWeek` → `getCurrentWeekRange` →
`generateRangesForDay`) starts at 15:00 ET — the endpoints inherit `now`'s
time of day and are not local-noon instants. -/
theorem generateRanges_start_not_noon :
    (getETComponents
      ((generateRangesForDay
          (getCurrentWeekRange
            (findRecentDayOfWeek (createETNoonDate 2025 9 20 + 3 * msPerHour) 5) 5
            (getETComponents (createETNoonDate 2025 9 20 + 3 * msPerHour))).1
          0 0 RangeType.friday).headD ⟨0, 0, RangeType.friday⟩).startMs).hour
      = 15 := by decide

/-- **C3** (amended): every window produced by `generateRangesForDay` (and
by `getCurrentWeekRange`) has its end exactly `7 × 24 × 60 × 60 × 1000` ms
of *elapsed* time after its start — fixed-hour stepping, not calendar-day
stepping, so across a DST transition the endpoints drift off local noon
(noon anchoring happens downstream, via ET date strings and
`parseETNoonDate`). -/
theorem generateRanges_fixed_elapsed_week :
    (∀ (startDay minD maxD : Int) (ty : RangeType),
      ∀ r ∈ generateRangesForDay startDay minD maxD ty,
        r.endMs = r.startMs + 7 * msPerDay) ∧
    (∀ (recentDay dayOfWeek : Int) (et : ETComponents),
      (getCurrentWeekRange recentDay dayOfWeek et).2 =
        (getCurrentWeekRange recentDay dayOfWeek et).1 + 7 * msPerDay) := by
  constructor
  · intro startDay minD maxD ty r hr
    unfold generateRangesForDay at hr
    rcases List.mem_cons.mp hr with h | h
    · rw [h]
    · rcases List.mem_map.mp h with ⟨i, _, hi⟩
      rw [← hi]
      simp only []
      ring
  · intro recentDay dayOfWeek et
    unfold getCurrentWeekRange
    split
    · simp only []
    · simp only []

/-- Witness for `generateRanges_fixed_elapsed_week` on a concrete member
of a concrete range list. -/
theorem generateRanges_fixed_elapsed_week_witness :
    ({ startMs := 0, endMs := 604800000, rtype := RangeType.friday } : RawRange).endMs =
      ({ startMs := 0, endMs := 604800000, rtype := RangeType.friday } : RawRange).startMs +
        7 * msPerDay :=
  generateRanges_fixed_elapsed_week.1 0 0 0 RangeType.friday _ (by decide)

/-- **C5** (counterexample): a non-empty tweet list none of whose events
fall in any of the 4 shifted historical windows (here a single event from
January 2020 against a September 2025 window) yields a present, zero-count
average grid — not the `null` sentinel the claim requires. -/
theorem calculate4WeekAverage_nonempty_zero_grid :
    calculate4WeekAverageInternal (parseETNoonDate "2025-09-20")
        [⟨"Jan 01, 2020, 01:00:00 PM EST"⟩]
        (some "2025-09-05") (some "2025-09-12") ≠ none ∧
      (calculate4WeekAverageInternal (parseETNoonDate "2025-09-20")
        [⟨"Jan 01, 2020, 01:00:00 PM EST"⟩]
        (some "2025-09-05") (some "2025-09-12")).map AvgResult.current =
        some 0 := by decide

/-- **C5** (amended): `calculate4WeekAverage` returns the `null` sentinel
exactly when the tweet list is empty; any non-empty list — even one with no
event inside the 4 historical windows — produces a present (zero-filled)
grid object. -/
theorem calculate4WeekAverage_none_iff_empty (now : Int) (tweets : List Tweet)
    (s e : Option String) :
    calculate4WeekAverageInternal now tweets s e = none ↔ tweets = [] := by
  cases tweets with
  | nil =>
    exact ⟨fun _ => rfl, fun _ => rfl⟩
  | cons t ts =>
    have h : (calculate4WeekAverageInternal now (t :: ts) s e).isSome = true := rfl
    constructor
    · intro hn
      rw [hn] at h
      simp at h
    · intro hcon
      exact absurd hcon (List.cons_ne_nil t ts)

/-- **C6** (counterexample): `hdAvgZero` and `hdAvgSpike` differ only in
grid cells, which the key `pred_<current>_<avgCurrent>_<start>_<end>` does
not see.  After a first call with `hdAvgZero` fills the cache, a call with
`hdAvgSpike` returns the stale cached bundle (trend factor 1) instead of
its own internal result (trend factor 2): the memoized function is *not*
extensionally equal to `calculatePredictionsInternal`. -/
theorem memoized_conflates_distinct_inputs :
    predKey (some hdCur100) (some hdAvgZero) =
        predKey (some hdCur100) (some hdAvgSpike) ∧
      (calculatePredictionsMemoized
          (calculatePredictionsMemoized memoCache0 memoNow (fun _ => 0)
            (some hdCur100) (some hdAvgZero)).2
          memoNow (fun _ => 0) (some hdCur100) (some hdAvgSpike)).1 ≠
        calculatePredictionsInternal memoNow (fun _ => 0)
          (some hdCur100) (some hdAvgSpike) := by decide

/-- **C6** (amended): the memoized `calculatePredictions` returns exactly
the internal result whenever its key is absent from the cache (so in
particular on a fresh cache); on a key hit it returns the cached bundle,
so distinct inputs that share the `pred_…` key are conflated (see the
counterexample). -/
theorem memoized_miss_eq_internal (cache : MemoCache) (now : Int)
    (sqrtFn : ℚ → ℚ) (currentData avgData : Option HeatmapData)
    (h : cacheFind cache (predKey currentData avgData) = none) :
    (calculatePredictionsMemoized cache now sqrtFn currentData avgData).1 =
      calculatePredictionsInternal now sqrtFn currentData avgData := by
  unfold calculatePredictionsMemoized memoizeStep
  rw [h]

/-- Witness for `memoized_miss_eq_internal` on the empty cache. -/
theorem memoized_miss_eq_internal_witness :
    (calculatePredictionsMemoized memoCache0 memoNow (fun _ => 0)
      (some hdCur100) (some hdAvgZero)).1 =
      calculatePredictionsInternal memoNow (fun _ => 0)
        (some hdCur100) (some hdAvgZero) :=
  memoized_miss_eq_internal _ _ _ _ _ (by decide)

/-- **C9**: scanning newest-first, the inferred year drops by exactly one
at a step precisely when the month index increases across that step (Jan
then Dec going backwards crosses a year boundary), and never changes when
the month index decreases or stays the same.  `months.getD i 0 ≠ 13`
records that a real month index (−1..11, from `indexOf`) is never the
uninitialised sentinel. -/
theorem inferYears_decrement_iff (nowYear : Int) (months : List Int) (i : Nat)
    (hi : i + 1 < months.length) (hm : months.getD i 0 ≠ 13) :
    ((inferYears nowYear months).getD (i + 1) 0 =
        (inferYears nowYear months).getD i 0 - 1
      ↔ months.getD i 0 < months.getD (i + 1) 0) ∧
    (¬ months.getD i 0 < months.getD (i + 1) 0 →
      (inferYears nowYear months).getD (i + 1) 0 =
        (inferYears nowYear months).getD i 0) := by
  have hstep := inferYearsAux_adjacent nowYear 13 months i hi
  unfold inferYears
  constructor
  · constructor
    · intro h
      rw [hstep] at h
      by_cases hcond : months.getD (i + 1) 0 > months.getD i 0 ∧
          months.getD i 0 ≠ 13
      · exact hcond.1
      · rw [if_neg hcond] at h
        omega
    · intro h
      rw [hstep, if_pos ⟨h, hm⟩]
  · intro h
    rw [hstep, if_neg (fun hc => h hc.1)]

/-- Witness for `inferYears_decrement_iff`: months `[Jan, Dec, Nov]`
(newest first); the Jan→Dec step decrements the year, the Dec→Nov step
does not. -/
theorem inferYears_decrement_iff_witness :
    (((inferYears 2025 [0, 11, 10]).getD 1 0 =
        (inferYears 2025 [0, 11, 10]).getD 0 0 - 1
      ↔ ([0, 11, 10] : List Int).getD 0 0 < ([0, 11, 10] : List Int).getD 1 0) ∧
      (¬ ([0, 11, 10] : List Int).getD 0 0 < ([0, 11, 10] : List Int).getD 1 0 →
        (inferYears 2025 [0, 11, 10]).getD 1 0 =
          (inferYears 2025 [0, 11, 10]).getD 0 0)) ∧
      (inferYears 2025 [0, 11, 10] = [2025, 2024, 2024]) :=
  ⟨inferYears_decrement_iff 2025 [0, 11, 10] 0 (by decide) (by decide), by decide⟩

/-- Witness for `processData_zero_grid_peak_defaults`: the empty event
list over a concrete window. -/
theorem processData_zero_grid_peak_defaults_witness :
    (processData (parseETNoonDate "2025-09-20") [] (some "2025-09-05")
        (some "2025-09-12")).maxValue = 0 ∧
      (processData (parseETNoonDate "2025-09-20") [] (some "2025-09-05")
        (some "2025-09-12")).peakHour = "12 AM" ∧
      (processData (parseETNoonDate "2025-09-20") [] (some "2025-09-05")
        (some "2025-09-12")).mostActiveDay =
        (processData (parseETNoonDate "2025-09-20") [] (some "2025-09-05")
          (some "2025-09-12")).days.getD 0 "" :=
  processData_zero_grid_peak_defaults _ _ _ _ (by decide)

/-- Witness for `calculate4WeekAverage_none_iff_empty` on the empty list. -/
theorem calculate4WeekAverage_none_iff_empty_witness :
    calculate4WeekAverageInternal 0 [] none none = none :=
  (calculate4WeekAverage_none_iff_empty 0 [] none none).mpr rfl
